import Mathlib

/-!
Verification development for the ingredients-tracker inventory backend.

The data-access layer (`src/asqlite_class.py`) is shallowly embedded here:

* SQLite tables (`src/database_schemas.py`) become lists of rows inside `DB`;
  `AUTOINCREMENT` columns become explicit `next…Id` counters starting at 1.
* The aiosqlite connection becomes `Conn`, a pair of a durable (`committed`)
  and an in-transaction (`pending`) database.  `execute` statements rewrite
  `pending`; `Conn.commit` copies `pending` into `committed`; `Conn.rollback`
  restores `pending` from `committed`.  This makes the code's
  commit/rollback ordering observable.
* `SqliteManager` becomes `ManagerState`: after `__init__` the manager is
  `disconnected` (the `cur` attribute does not exist yet); after a
  successful `connect()` it is `connected` and holds a `Conn`.
* Python exceptions become the `Err` inductive returned through `Except`.
* `CURRENT_TIMESTAMP` is modelled by an explicit `now : Nat` argument to the
  operations that stamp timestamps; timestamp columns are `Nat`.
* Floating-point `REAL` columns carry exact values in all behaviours of
  interest, so they are modelled by `Rat`.
* `fetchone` returns the first matching row of the embedded row list; row
  order in the model is insertion order.
-/

deriving instance DecidableEq for Except

/-- The error taxonomy.  The first six constructors are the classes of
`src/error_models.py`; `typeError`, `attributeError` and `runtimeError`
stand for the corresponding Python built-in exceptions; `notConnected` is
modelled from the spec: the spec's §7 taxonomy names a `NotConnectedError`,
but no such class exists anywhere in the source. -/
inductive Err : Type where
  | ingredientAlreadyExistsInIngredients
  | ingredientInsertion
  | ingredientAlreadyExistsInInventory
  | inventoryDeletion
  | inventoryUpdate
  | ingredientNotFound
  | typeError
  | attributeError
  | runtimeError
  | notConnected
deriving DecidableEq, Repr

/-- A row of the `ingredients` table (`ingredients_schema`). -/
structure IngredientRow : Type where
  id : Nat
  name : String
  category : String
  unit_type : String
deriving DecidableEq, Repr

/-- A row of the `inventory` table (`inventory_schema`).  `created_at` and
`updated_at` are `TEXT DEFAULT CURRENT_TIMESTAMP` columns, modelled as
abstract clock values. -/
structure InventoryRow : Type where
  id : Nat
  user_id : Nat
  ingredient_id : Nat
  quantity : Rat
  minimum_threshold : Rat
  expiration_date : Option String
  created_at : Nat
  updated_at : Nat
deriving DecidableEq, Repr

/-- The database: the two tables the data-access layer reads and writes,
plus the `AUTOINCREMENT` counters (SQLite rowids start at 1). -/
structure DB : Type where
  ingredients : List IngredientRow
  inventory : List InventoryRow
  nextIngredientId : Nat
  nextInventoryId : Nat
deriving DecidableEq, Repr

/-- A freshly created database file after the `CREATE TABLE IF NOT EXISTS`
statements of `connect()` ran: both tables empty, rowids starting at 1. -/
def DB.init : DB := ⟨[], [], 1, 1⟩

/-- The aiosqlite connection: the durable store and the current
in-transaction view seen by the cursor. -/
structure Conn : Type where
  committed : DB
  pending : DB
deriving DecidableEq, Repr

/-- `await self.conn.commit()`. -/
def Conn.commit (c : Conn) : Conn := ⟨c.pending, c.pending⟩

/-- `await self.conn.rollback()`: discards whatever is not committed. -/
def Conn.rollback (c : Conn) : Conn := ⟨c.committed, c.committed⟩

/-- A connection to a fresh database file, right after `connect()`. -/
def Conn.init : Conn := ⟨DB.init, DB.init⟩

/-- `IngredientInsertion` of `src/data_models.py` (category and unit are
validated strings at this layer). -/
structure IngredientInsertion : Type where
  name : String
  category : String
  unit_type : String
deriving DecidableEq, Repr

/-- `InventoryInsertion` of `src/data_models.py`. -/
structure InventoryInsertion : Type where
  quantity : Rat
  minimum_threshold : Rat
  expiration_date : Option String
deriving DecidableEq, Repr

/-- `Ingredient` of `src/data_models.py`: catalog attributes joined with
inventory attributes. -/
structure Ingredient : Type where
  name : String
  category : String
  unit_type : String
  quantity : Rat
  minimum_threshold : Rat
  expiration_date : Option String
deriving DecidableEq, Repr

/-- `IngredientFullResponse` of `src/data_models.py`. -/
structure IngredientFullResponse : Type where
  ingredient_id : Nat
  inventory_id : Nat
  user_id : Nat
  created_at : Nat
  updated_at : Nat
  name : String
  category : String
  unit_type : String
  quantity : Rat
  minimum_threshold : Rat
  expiration_date : Option String
deriving DecidableEq, Repr

namespace DB

/-- `SELECT t1.quantity FROM inventory t1 INNER JOIN ingredients t2 ON
t1.ingredient_id = t2.id WHERE t1.user_id = ? AND t2.name = ?`, then
`table[0] if table else 0.0` (`get_ingredient_quantity_by_name`). -/
def get_ingredient_quantity_by_name (db : DB) (ingredient_name : String)
    (user_id : Nat) : Rat :=
  match db.inventory.find? (fun inv =>
      inv.user_id == user_id &&
        db.ingredients.any (fun g =>
          g.id == inv.ingredient_id && g.name == ingredient_name)) with
  | some inv => inv.quantity
  | none => 0

/-- `SELECT quantity FROM inventory WHERE user_id = ? AND ingredient_id = ?`,
then `table[0] if table else 0.0` (`get_ingredient_quantity_by_id`). -/
def get_ingredient_quantity_by_id (db : DB) (ingredient_id user_id : Nat) :
    Rat :=
  match db.inventory.find? (fun inv =>
      inv.user_id == user_id && inv.ingredient_id == ingredient_id) with
  | some inv => inv.quantity
  | none => 0

/-- `get_ingredient_measurement_unit_by_name`: `SELECT unit_type FROM
ingredients WHERE name = ?`; an empty result raises
`IngredientNotFoundError`. -/
def get_ingredient_measurement_unit_by_name (db : DB)
    (ingredient_name : String) : Except Err String :=
  match db.ingredients.find? (fun g => g.name == ingredient_name) with
  | none => .error .ingredientNotFound
  | some g => .ok g.unit_type

/-- `get_ingredient_measurement_unit_by_id`: `SELECT unit_type FROM
ingredients WHERE id = ?`.  The code runs `unit_type = table[0]` before any
none-check, so an absent id raises `TypeError` (`None` is not
subscriptable); the `if not unit_type` guard only fires on a falsy (empty)
stored string. -/
def get_ingredient_measurement_unit_by_id (db : DB) (ingredient_id : Nat) :
    Except Err String :=
  match db.ingredients.find? (fun g => g.id == ingredient_id) with
  | none => .error .typeError
  | some g =>
      if g.unit_type == "" then .error .ingredientNotFound
      else .ok g.unit_type

/-- The join row of `get_ingredient_info_by_name` /
`get_ingredient_info_by_id`: the `RIGHT JOIN` keeps every inventory row,
but the `WHERE t1.name = ?` (resp. `t1.id = ?`) filter discards rows whose
catalog side is `NULL`, so the query behaves as an inner join. -/
def joined_catalog_row (db : DB) (inv : InventoryRow) : Option IngredientRow :=
  db.ingredients.find? (fun g => g.id == inv.ingredient_id)

/-- `get_ingredient_info_by_name`: first joined row with the given catalog
name and user, composed into an `Ingredient`; `None` when absent. -/
def get_ingredient_info_by_name (db : DB) (ingredient_name : String)
    (user_id : Nat) : Option Ingredient :=
  match db.inventory.find? (fun inv =>
      inv.user_id == user_id &&
        (match joined_catalog_row db inv with
         | some g => g.name == ingredient_name
         | none => false)) with
  | none => none
  | some inv =>
      match joined_catalog_row db inv with
      | none => none
      | some g =>
          some ⟨g.name, g.category, g.unit_type, inv.quantity,
            inv.minimum_threshold, inv.expiration_date⟩

/-- `get_ingredient_info_by_id`: same join filtered by catalog id. -/
def get_ingredient_info_by_id (db : DB) (ingredient_id user_id : Nat) :
    Option Ingredient :=
  match db.inventory.find? (fun inv =>
      inv.user_id == user_id &&
        (match joined_catalog_row db inv with
         | some g => g.id == ingredient_id
         | none => false)) with
  | none => none
  | some inv =>
      match joined_catalog_row db inv with
      | none => none
      | some g =>
          some ⟨g.name, g.category, g.unit_type, inv.quantity,
            inv.minimum_threshold, inv.expiration_date⟩

/-- `get_ingredient_id_by_name`: `SELECT id FROM ingredients WHERE name = ?`;
despite the `int | None` annotation, an empty result raises
`IngredientNotFoundError`. -/
def get_ingredient_id_by_name (db : DB) (ingredient_name : String) :
    Except Err Nat :=
  match db.ingredients.find? (fun g => g.name == ingredient_name) with
  | none => .error .ingredientNotFound
  | some g => .ok g.id

/-- `ingredient_exists_in_inventory_by_name`: `COUNT(*) > 0` over the
inventory/ingredients inner join filtered by user and catalog name. -/
def ingredient_exists_in_inventory_by_name (db : DB)
    (ingredient_name : String) (user_id : Nat) : Bool :=
  db.inventory.any (fun inv =>
    inv.user_id == user_id &&
      db.ingredients.any (fun g =>
        g.id == inv.ingredient_id && g.name == ingredient_name))

/-- `ingredient_exists_in_inventory_by_id`: `COUNT(*) > 0` over the same
join filtered by user and catalog id. -/
def ingredient_exists_in_inventory_by_id (db : DB)
    (ingredient_id user_id : Nat) : Bool :=
  db.inventory.any (fun inv =>
    inv.user_id == user_id &&
      db.ingredients.any (fun g =>
        g.id == inv.ingredient_id && g.id == ingredient_id))

/-- `ingredient_exists_in_ingredients_by_name`: `COUNT(*) > 0` over the
catalog filtered by name. -/
def ingredient_exists_in_ingredients_by_name (db : DB)
    (ingredient_name : String) : Bool :=
  db.ingredients.any (fun g => g.name == ingredient_name)

/-- `ingredient_exists_in_ingredients_by_id`: `COUNT(*) > 0` over the
catalog filtered by id. -/
def ingredient_exists_in_ingredients_by_id (db : DB) (ingredient_id : Nat) :
    Bool :=
  db.ingredients.any (fun g => g.id == ingredient_id)

/-- Number of catalog rows carrying a given name. -/
def catalog_count_for_name (db : DB) (ingredient_name : String) : Nat :=
  (db.ingredients.filter (fun g => g.name == ingredient_name)).length

end DB

namespace Conn

/-- `add_ingredient_to_ingredients`, parameterised by the value the sqlite
driver reports as `self.cur.lastrowid` after the `INSERT` (in Python a
falsy report — `None` or `0` — is modelled as `0`).  The code commits
*before* checking the reported id, and only then rolls back, so the
rollback acts on an already committed state. -/
def add_ingredient_to_ingredients_with_lastrowid (c : Conn)
    (ingredient : IngredientInsertion) (lastrowid : Nat) :
    Except Err Nat × Conn :=
  if DB.ingredient_exists_in_ingredients_by_name c.pending ingredient.name then
    (.error .ingredientAlreadyExistsInIngredients, c)
  else
    let newId := c.pending.nextIngredientId
    let db' : DB :=
      { c.pending with
          ingredients := c.pending.ingredients ++
            [⟨newId, ingredient.name, ingredient.category,
              ingredient.unit_type⟩],
          nextIngredientId := newId + 1 }
    let c2 := (Conn.mk c.committed db').commit
    if lastrowid == 0 then
      (.error .ingredientInsertion, c2.rollback)
    else
      (.ok lastrowid, c2)

/-- `add_ingredient_to_ingredients` with the report the sqlite driver
actually produces: the rowid assigned to the inserted row. -/
def add_ingredient_to_ingredients (c : Conn)
    (ingredient : IngredientInsertion) : Except Err Nat × Conn :=
  c.add_ingredient_to_ingredients_with_lastrowid ingredient
    c.pending.nextIngredientId

/-- `add_ingredient_into_inventory`: precondition check, `INSERT` (the
`created_at`/`updated_at` defaults stamp the current time `now`), commit,
then the two confirmation reads used to compose the response. -/
def add_ingredient_into_inventory (c : Conn) (user_id ingredient_id : Nat)
    (inventory_insertion : InventoryInsertion) (now : Nat) :
    Except Err IngredientFullResponse × Conn :=
  if DB.ingredient_exists_in_inventory_by_id c.pending ingredient_id user_id
  then
    (.error .ingredientAlreadyExistsInInventory, c)
  else
    let newId := c.pending.nextInventoryId
    let row : InventoryRow :=
      ⟨newId, user_id, ingredient_id, inventory_insertion.quantity,
        inventory_insertion.minimum_threshold,
        inventory_insertion.expiration_date, now, now⟩
    let db' : DB :=
      { c.pending with
          inventory := c.pending.inventory ++ [row],
          nextInventoryId := newId + 1 }
    let c2 := (Conn.mk c.committed db').commit
    if newId == 0 then
      (.error .ingredientInsertion, c2.rollback)
    else
      match c2.pending.inventory.find? (fun r => r.id == newId) with
      | none => (.error .ingredientInsertion, c2)
      | some r =>
          match c2.pending.ingredients.find?
              (fun g => g.id == ingredient_id) with
          | none => (.error .ingredientInsertion, c2)
          | some g =>
              (.ok ⟨ingredient_id, newId, user_id, r.created_at,
                r.updated_at, g.name, g.category, g.unit_type,
                inventory_insertion.quantity,
                inventory_insertion.minimum_threshold,
                inventory_insertion.expiration_date⟩, c2)

/-- `delete_ingredient_from_inventory_by_id`. -/
def delete_ingredient_from_inventory_by_id (c : Conn)
    (ingredient_id user_id : Nat) : Except Err Bool × Conn :=
  if !(DB.ingredient_exists_in_inventory_by_id c.pending ingredient_id
      user_id) then
    (.error .inventoryDeletion, c)
  else
    let p : InventoryRow → Bool := fun r =>
      r.ingredient_id == ingredient_id && r.user_id == user_id
    let rowcount := c.pending.inventory.countP p
    let db' : DB :=
      { c.pending with
          inventory := c.pending.inventory.filter (fun r => !(p r)) }
    let c2 := (Conn.mk c.committed db').commit
    if rowcount == 0 then (.ok false, c2) else (.ok true, c2)

/-- `delete_ingredient_from_inventory_by_name`: the `DELETE` targets
`ingredient_id = (SELECT id FROM ingredients WHERE name = ?)`; an absent
name makes the subquery `NULL`, matching no row. -/
def delete_ingredient_from_inventory_by_name (c : Conn)
    (ingredient_name : String) (user_id : Nat) : Except Err Bool × Conn :=
  if !(DB.ingredient_exists_in_inventory_by_name c.pending ingredient_name
      user_id) then
    (.error .inventoryDeletion, c)
  else
    let subId : Option Nat :=
      (c.pending.ingredients.find? (fun g => g.name == ingredient_name)).map
        (fun g => g.id)
    let p : InventoryRow → Bool := fun r =>
      r.user_id == user_id &&
        (match subId with
         | some i => r.ingredient_id == i
         | none => false)
    let rowcount := c.pending.inventory.countP p
    let db' : DB :=
      { c.pending with
          inventory := c.pending.inventory.filter (fun r => !(p r)) }
    let c2 := (Conn.mk c.committed db').commit
    if rowcount == 0 then (.ok false, c2) else (.ok true, c2)

end Conn

/-- The `updates` dict handed to the update methods, as produced by
`InventoryUpdate.model_dump(exclude_unset=True)` in `src/main.py`: each of
the three updatable columns is either absent from the dict (`none`),
present with Python `None` (`some none`), or present with a value
(`some (some v)`). -/
structure InventoryUpdateDict : Type where
  quantity : Option (Option Rat)
  minimum_threshold : Option (Option Rat)
  expiration_date : Option (Option String)
deriving DecidableEq, Repr

/-- One `"column = ?"` fragment of the generated `SET` clause together with
its bound value. -/
inductive SetClause : Type where
  | qty (q : Rat)
  | thr (t : Rat)
  | exp (d : String)
deriving DecidableEq, Repr

/-- The `for key, value in updates.items(): if value is not None: …` loop:
entries whose value is `None` are dropped; the surviving entries become
`SET` clauses (dict order is the pydantic field-declaration order). -/
def buildUpdateFields (u : InventoryUpdateDict) : List SetClause :=
  (match u.quantity with
   | some (some q) => [SetClause.qty q]
   | _ => []) ++
  (match u.minimum_threshold with
   | some (some t) => [SetClause.thr t]
   | _ => []) ++
  (match u.expiration_date with
   | some (some d) => [SetClause.exp d]
   | _ => [])

/-- Effect of one `SET` clause on an inventory row. -/
def applySetClause (r : InventoryRow) (f : SetClause) : InventoryRow :=
  match f with
  | .qty q => { r with quantity := q }
  | .thr t => { r with minimum_threshold := t }
  | .exp d => { r with expiration_date := some d }

/-- Effect of the whole `SET` list on a matched row; the statement always
ends with `updated_at = CURRENT_TIMESTAMP`. -/
def applyUpdates (fs : List SetClause) (now : Nat) (r : InventoryRow) :
    InventoryRow :=
  { fs.foldl applySetClause r with updated_at := now }

namespace Conn

/-- `update_ingredient_in_inventory_by_id`: existence check, `SET`-clause
construction (empty patch rejected), `UPDATE … WHERE user_id = ? AND
ingredient_id = ?`, commit, affected-row check, and the confirmation
re-read joining catalog and inventory. -/
def update_ingredient_in_inventory_by_id (c : Conn)
    (ingredient_id user_id : Nat) (updates : InventoryUpdateDict)
    (now : Nat) : Except Err IngredientFullResponse × Conn :=
  if !(DB.ingredient_exists_in_inventory_by_id c.pending ingredient_id
      user_id) then
    (.error .inventoryUpdate, c)
  else
    let fs := buildUpdateFields updates
    if fs.isEmpty then
      (.error .inventoryUpdate, c)
    else
      let p : InventoryRow → Bool := fun r =>
        r.user_id == user_id && r.ingredient_id == ingredient_id
      let rowcount := c.pending.inventory.countP p
      let db' : DB :=
        { c.pending with
            inventory := c.pending.inventory.map (fun r =>
              if p r then applyUpdates fs now r else r) }
      let c2 := (Conn.mk c.committed db').commit
      if rowcount == 0 then
        (.error .inventoryUpdate, c2)
      else
        match c2.pending.ingredients.find?
            (fun g => g.id == ingredient_id) with
        | none => (.error .inventoryUpdate, c2)
        | some g =>
            match c2.pending.inventory.find? (fun r =>
                r.ingredient_id == g.id && r.user_id == user_id) with
            | none => (.error .inventoryUpdate, c2)
            | some r =>
                (.ok ⟨ingredient_id, r.id, user_id, r.created_at,
                  r.updated_at, g.name, g.category, g.unit_type,
                  r.quantity, r.minimum_threshold, r.expiration_date⟩, c2)

/-- `update_ingredient_in_inventory_by_name`: as by-id, but the `UPDATE`
targets `ingredient_id = (SELECT id FROM ingredients WHERE name = ?)` and
the re-read joins on the catalog name. -/
def update_ingredient_in_inventory_by_name (c : Conn)
    (ingredient_name : String) (user_id : Nat)
    (updates : InventoryUpdateDict) (now : Nat) :
    Except Err IngredientFullResponse × Conn :=
  if !(DB.ingredient_exists_in_inventory_by_name c.pending ingredient_name
      user_id) then
    (.error .inventoryUpdate, c)
  else
    let fs := buildUpdateFields updates
    if fs.isEmpty then
      (.error .inventoryUpdate, c)
    else
      let subId : Option Nat :=
        (c.pending.ingredients.find?
          (fun g => g.name == ingredient_name)).map (fun g => g.id)
      let p : InventoryRow → Bool := fun r =>
        r.user_id == user_id &&
          (match subId with
           | some i => r.ingredient_id == i
           | none => false)
      let rowcount := c.pending.inventory.countP p
      let db' : DB :=
        { c.pending with
            inventory := c.pending.inventory.map (fun r =>
              if p r then applyUpdates fs now r else r) }
      let c2 := (Conn.mk c.committed db').commit
      if rowcount == 0 then
        (.error .inventoryUpdate, c2)
      else
        match c2.pending.ingredients.find?
            (fun g => g.name == ingredient_name) with
        | none => (.error .inventoryUpdate, c2)
        | some g =>
            match c2.pending.inventory.find? (fun r =>
                r.ingredient_id == g.id && r.user_id == user_id) with
            | none => (.error .inventoryUpdate, c2)
            | some r =>
                (.ok ⟨g.id, r.id, user_id, r.created_at, r.updated_at,
                  g.name, g.category, g.unit_type, r.quantity,
                  r.minimum_threshold, r.expiration_date⟩, c2)

/-- `get_all_ingredients_in_inventory`: every inventory row of the user
joined with its catalog attributes. -/
def get_all_ingredients_in_inventory (c : Conn) (user_id : Nat) :
    List IngredientFullResponse :=
  (c.pending.inventory.filter (fun r => r.user_id == user_id)).filterMap
    (fun r =>
      (c.pending.ingredients.find? (fun g => g.id == r.ingredient_id)).map
        (fun g =>
          ⟨g.id, r.id, user_id, r.created_at, r.updated_at, g.name,
            g.category, g.unit_type, r.quantity, r.minimum_threshold,
            r.expiration_date⟩))

end Conn

/-- `SqliteManager` lifecycle state: `__init__` stores the database name and
sets `self.conn = None`; the cursor attribute `self.cur` is only created by
a successful `connect()`, so before that every query method's
`self.cur.…` access raises `AttributeError`. -/
inductive ManagerState : Type where
  | disconnected (db_name : String)
  | connected (db_name : String) (c : Conn)
deriving DecidableEq, Repr

/-- `SqliteManager(db_name)`. -/
def SqliteManager.make (db_name : String) : ManagerState :=
  .disconnected db_name

/-- `connect()` on a fresh manager: opens the store and applies the
idempotent schema statements. -/
def SqliteManager.connect : ManagerState → ManagerState
  | .disconnected n => .connected n Conn.init
  | .connected n c => .connected n c

/-- `get_connection`: raises a plain `RuntimeError` (not a taxonomy error)
when `self.conn` is `None`. -/
def SqliteManager.get_connection : ManagerState → Except Err Unit
  | .disconnected _ => .error .runtimeError
  | .connected _ _ => .ok ()

/-- Run a read-only query through the manager: before `connect()` the
`self.cur` attribute does not exist and the access raises
`AttributeError`. -/
def ManagerState.runRead {α : Type} (s : ManagerState)
    (k : Conn → Except Err α) : Except Err α :=
  match s with
  | .disconnected _ => .error .attributeError
  | .connected _ c => k c

/-- Run a mutating operation through the manager; same `AttributeError`
behaviour before `connect()`. -/
def ManagerState.runWrite {α : Type} (s : ManagerState)
    (k : Conn → Except Err α × Conn) : Except Err α × ManagerState :=
  match s with
  | .disconnected n => (.error .attributeError, .disconnected n)
  | .connected n c =>
      match k c with
      | (r, c') => (r, .connected n c')

namespace SqliteManager

/-- Manager-level `get_ingredient_quantity_by_name`. -/
def get_ingredient_quantity_by_name (s : ManagerState)
    (ingredient_name : String) (user_id : Nat) : Except Err Rat :=
  s.runRead (fun c =>
    .ok (DB.get_ingredient_quantity_by_name c.pending ingredient_name
      user_id))

/-- Manager-level `get_ingredient_quantity_by_id`. -/
def get_ingredient_quantity_by_id (s : ManagerState)
    (ingredient_id user_id : Nat) : Except Err Rat :=
  s.runRead (fun c =>
    .ok (DB.get_ingredient_quantity_by_id c.pending ingredient_id user_id))

/-- Manager-level `get_ingredient_measurement_unit_by_name`. -/
def get_ingredient_measurement_unit_by_name (s : ManagerState)
    (ingredient_name : String) : Except Err String :=
  s.runRead (fun c =>
    DB.get_ingredient_measurement_unit_by_name c.pending ingredient_name)

/-- Manager-level `get_ingredient_measurement_unit_by_id`. -/
def get_ingredient_measurement_unit_by_id (s : ManagerState)
    (ingredient_id : Nat) : Except Err String :=
  s.runRead (fun c =>
    DB.get_ingredient_measurement_unit_by_id c.pending ingredient_id)

/-- Manager-level `get_ingredient_info_by_name`. -/
def get_ingredient_info_by_name (s : ManagerState)
    (ingredient_name : String) (user_id : Nat) :
    Except Err (Option Ingredient) :=
  s.runRead (fun c =>
    .ok (DB.get_ingredient_info_by_name c.pending ingredient_name user_id))

/-- Manager-level `get_ingredient_info_by_id`. -/
def get_ingredient_info_by_id (s : ManagerState)
    (ingredient_id user_id : Nat) : Except Err (Option Ingredient) :=
  s.runRead (fun c =>
    .ok (DB.get_ingredient_info_by_id c.pending ingredient_id user_id))

/-- Manager-level `get_ingredient_id_by_name`. -/
def get_ingredient_id_by_name (s : ManagerState)
    (ingredient_name : String) : Except Err Nat :=
  s.runRead (fun c =>
    DB.get_ingredient_id_by_name c.pending ingredient_name)

/-- Manager-level `ingredient_exists_in_inventory_by_name`. -/
def ingredient_exists_in_inventory_by_name (s : ManagerState)
    (ingredient_name : String) (user_id : Nat) : Except Err Bool :=
  s.runRead (fun c =>
    .ok (DB.ingredient_exists_in_inventory_by_name c.pending ingredient_name
      user_id))

/-- Manager-level `ingredient_exists_in_inventory_by_id`. -/
def ingredient_exists_in_inventory_by_id (s : ManagerState)
    (ingredient_id user_id : Nat) : Except Err Bool :=
  s.runRead (fun c =>
    .ok (DB.ingredient_exists_in_inventory_by_id c.pending ingredient_id
      user_id))

/-- Manager-level `ingredient_exists_in_ingredients_by_name`. -/
def ingredient_exists_in_ingredients_by_name (s : ManagerState)
    (ingredient_name : String) : Except Err Bool :=
  s.runRead (fun c =>
    .ok (DB.ingredient_exists_in_ingredients_by_name c.pending
      ingredient_name))

/-- Manager-level `ingredient_exists_in_ingredients_by_id`. -/
def ingredient_exists_in_ingredients_by_id (s : ManagerState)
    (ingredient_id : Nat) : Except Err Bool :=
  s.runRead (fun c =>
    .ok (DB.ingredient_exists_in_ingredients_by_id c.pending ingredient_id))

/-- Manager-level `add_ingredient_to_ingredients`. -/
def add_ingredient_to_ingredients (s : ManagerState)
    (ingredient : IngredientInsertion) : Except Err Nat × ManagerState :=
  s.runWrite (fun c => c.add_ingredient_to_ingredients ingredient)

/-- Manager-level `add_ingredient_into_inventory`. -/
def add_ingredient_into_inventory (s : ManagerState)
    (user_id ingredient_id : Nat)
    (inventory_insertion : InventoryInsertion) (now : Nat) :
    Except Err IngredientFullResponse × ManagerState :=
  s.runWrite (fun c =>
    c.add_ingredient_into_inventory user_id ingredient_id
      inventory_insertion now)

/-- Manager-level `delete_ingredient_from_inventory_by_id`. -/
def delete_ingredient_from_inventory_by_id (s : ManagerState)
    (ingredient_id user_id : Nat) : Except Err Bool × ManagerState :=
  s.runWrite (fun c =>
    c.delete_ingredient_from_inventory_by_id ingredient_id user_id)

/-- Manager-level `delete_ingredient_from_inventory_by_name`. -/
def delete_ingredient_from_inventory_by_name (s : ManagerState)
    (ingredient_name : String) (user_id : Nat) :
    Except Err Bool × ManagerState :=
  s.runWrite (fun c =>
    c.delete_ingredient_from_inventory_by_name ingredient_name user_id)

/-- Manager-level `update_ingredient_in_inventory_by_id`. -/
def update_ingredient_in_inventory_by_id (s : ManagerState)
    (ingredient_id user_id : Nat) (updates : InventoryUpdateDict)
    (now : Nat) : Except Err IngredientFullResponse × ManagerState :=
  s.runWrite (fun c =>
    c.update_ingredient_in_inventory_by_id ingredient_id user_id updates
      now)

/-- Manager-level `update_ingredient_in_inventory_by_name`. -/
def update_ingredient_in_inventory_by_name (s : ManagerState)
    (ingredient_name : String) (user_id : Nat)
    (updates : InventoryUpdateDict) (now : Nat) :
    Except Err IngredientFullResponse × ManagerState :=
  s.runWrite (fun c =>
    c.update_ingredient_in_inventory_by_name ingredient_name user_id
      updates now)

/-- Manager-level `get_all_ingredients_in_inventory`. -/
def get_all_ingredients_in_inventory (s : ManagerState) (user_id : Nat) :
    Except Err (List IngredientFullResponse) :=
  s.runRead (fun c => .ok (c.get_all_ingredients_in_inventory user_id))

end SqliteManager

/-- `updates.items()` with the `None`-valued entries removed, i.e. the dict
the caller would have sent had it omitted those keys instead. -/
def drop_none_entries (u : InventoryUpdateDict) : InventoryUpdateDict :=
  ⟨match u.quantity with
    | some none => none
    | x => x,
   match u.minimum_threshold with
    | some none => none
    | x => x,
   match u.expiration_date with
    | some none => none
    | x => x⟩

/-- Concrete catalog insertion used by the witnesses. -/
def saltInsertion : IngredientInsertion := ⟨"salt", "staple", "grams"⟩

/-- Concrete inventory insertion used by the witnesses: the quantities of
spec §8's round-trip property. -/
def invInsertion : InventoryInsertion := ⟨5, 1, some "2025-01-01"⟩

/-- Connection state after `add_ingredient_to_catalog` succeeded for
`salt` on a fresh database. -/
def connWithSalt : Conn :=
  (Conn.init.add_ingredient_to_ingredients saltInsertion).2

/-- Connection state after user 1 additionally added `salt` (ingredient 1)
to their inventory at time 10. -/
def connWithSaltInv : Conn :=
  (connWithSalt.add_ingredient_into_inventory 1 1 invInsertion 10).2

/-! ## Theorems about the embedded operations -/

/-- C1: on a catalog holding exactly `salt`, the measurement-unit lookup by
name returns the stored unit for a present name and fails with
`IngredientNotFoundError` for an absent one; the lookup by id, however,
fails with a `TypeError` (subscripting the absent row) for an absent id —
not with `IngredientNotFoundError` as its own docstring promises. -/
theorem C1_measurement_unit_lookup_eval :
    DB.get_ingredient_measurement_unit_by_name connWithSalt.pending "salt" =
        .ok "grams"
      ∧ DB.get_ingredient_measurement_unit_by_name connWithSalt.pending
          "pepper" = .error .ingredientNotFound
      ∧ DB.get_ingredient_measurement_unit_by_id connWithSalt.pending 1 =
          .ok "grams"
      ∧ DB.get_ingredient_measurement_unit_by_id connWithSalt.pending 2 =
          .error .typeError
      ∧ Err.typeError ≠ Err.ingredientNotFound := by
  decide

/-- C2 (counterexample): on a manager whose `connect()` was never called,
`get_ingredient_quantity_by_name` fails with `AttributeError` (`self.cur`
does not exist), which is not the `NotConnectedError` the claim names. -/
theorem C2_counterexample :
    SqliteManager.get_ingredient_quantity_by_name
        (SqliteManager.make "inventory.db") "salt" 1 =
        .error .attributeError
      ∧ Err.attributeError ≠ Err.notConnected := by
  decide

/-- C2 (amended): every query method invoked before a successful
`connect()` fails, but with the untyped `AttributeError` coming from the
missing cursor attribute — no `NotConnectedError` type exists in the code;
`get_connection` (which no query method calls) fails with a plain
`RuntimeError`. -/
theorem C2_amended_queries_before_connect (dn n : String)
    (i u now : Nat) (ing : IngredientInsertion) (ins : InventoryInsertion)
    (upd : InventoryUpdateDict) :
    SqliteManager.get_ingredient_quantity_by_name (SqliteManager.make dn)
        n u = .error .attributeError
      ∧ SqliteManager.get_ingredient_quantity_by_id (SqliteManager.make dn)
          i u = .error .attributeError
      ∧ SqliteManager.get_ingredient_measurement_unit_by_name
          (SqliteManager.make dn) n = .error .attributeError
      ∧ SqliteManager.get_ingredient_measurement_unit_by_id
          (SqliteManager.make dn) i = .error .attributeError
      ∧ SqliteManager.get_ingredient_info_by_name (SqliteManager.make dn)
          n u = .error .attributeError
      ∧ SqliteManager.get_ingredient_info_by_id (SqliteManager.make dn)
          i u = .error .attributeError
      ∧ SqliteManager.get_ingredient_id_by_name (SqliteManager.make dn)
          n = .error .attributeError
      ∧ SqliteManager.ingredient_exists_in_inventory_by_name
          (SqliteManager.make dn) n u = .error .attributeError
      ∧ SqliteManager.ingredient_exists_in_inventory_by_id
          (SqliteManager.make dn) i u = .error .attributeError
      ∧ SqliteManager.ingredient_exists_in_ingredients_by_name
          (SqliteManager.make dn) n = .error .attributeError
      ∧ SqliteManager.ingredient_exists_in_ingredients_by_id
          (SqliteManager.make dn) i = .error .attributeError
      ∧ SqliteManager.get_all_ingredients_in_inventory
          (SqliteManager.make dn) u = .error .attributeError
      ∧ SqliteManager.add_ingredient_to_ingredients (SqliteManager.make dn)
          ing = (.error .attributeError, SqliteManager.make dn)
      ∧ SqliteManager.add_ingredient_into_inventory (SqliteManager.make dn)
          u i ins now = (.error .attributeError, SqliteManager.make dn)
      ∧ SqliteManager.delete_ingredient_from_inventory_by_id
          (SqliteManager.make dn) i u =
          (.error .attributeError, SqliteManager.make dn)
      ∧ SqliteManager.delete_ingredient_from_inventory_by_name
          (SqliteManager.make dn) n u =
          (.error .attributeError, SqliteManager.make dn)
      ∧ SqliteManager.update_ingredient_in_inventory_by_id
          (SqliteManager.make dn) i u upd now =
          (.error .attributeError, SqliteManager.make dn)
      ∧ SqliteManager.update_ingredient_in_inventory_by_name
          (SqliteManager.make dn) n u upd now =
          (.error .attributeError, SqliteManager.make dn)
      ∧ SqliteManager.get_connection (SqliteManager.make dn) =
          .error .runtimeError := by
  repeat' constructor

/-- C3: when the `INSERT` into the catalog executes but the driver reports
no generated id, the code does raise `IngredientInsertionError` — but the
`commit()` on line 396 runs before the check, so the `rollback()` undoes
nothing and the freshly inserted `salt` row remains in the committed
catalog, contradicting the claim that the catalog is left unchanged. -/
theorem C3_no_rollback_after_commit_eval :
    (Conn.init.add_ingredient_to_ingredients_with_lastrowid saltInsertion
        0).1 = .error .ingredientInsertion
      ∧ DB.catalog_count_for_name
          (Conn.init.add_ingredient_to_ingredients_with_lastrowid
            saltInsertion 0).2.committed "salt" = 1 := by
  decide

/-- C9 (counterexample): on an empty catalog, `get_ingredient_id_by_name`
raises `IngredientNotFoundError` instead of returning the nullable
"not found" sentinel the claim (and the `int | None` annotation)
describe. -/
theorem C9_counterexample :
    DB.get_ingredient_id_by_name DB.init "flour" =
      .error .ingredientNotFound := by
  decide

/-- C9 (amended): `get_ingredient_id_by_name` raises
`IngredientNotFoundError` for every name absent from the catalog, and
returns the first matching catalog row's id for every present name. -/
theorem C9_id_by_name_raises (db : DB) (n : String) :
    (db.ingredients.find? (fun g => g.name == n) = none →
        DB.get_ingredient_id_by_name db n = .error .ingredientNotFound)
      ∧ ∀ g, db.ingredients.find? (fun g' => g'.name == n) = some g →
          DB.get_ingredient_id_by_name db n = .ok g.id := by
  refine ⟨fun h => ?_, fun g h => ?_⟩ <;>
    simp [DB.get_ingredient_id_by_name, h]

/-- C9 witness for the amended theorem, at the catalog holding `salt`. -/
theorem C9_id_by_name_raises_witness :
    (connWithSalt.pending.ingredients.find? (fun g' => g'.name == "salt") =
        some ⟨1, "salt", "staple", "grams"⟩)
      ∧ DB.get_ingredient_id_by_name connWithSalt.pending "salt" = .ok 1 :=
  ⟨by decide,
   (C9_id_by_name_raises connWithSalt.pending "salt").2
     ⟨1, "salt", "staple", "grams"⟩ (by decide)⟩

/-- C8: when no inventory row of the user matches the given name (resp.
id), the quantity lookups return `0.0` through the connected manager and
never raise. -/
theorem C8_absent_quantity_is_zero (dn : String) (c : Conn) (n : String)
    (iid u : Nat)
    (hn : c.pending.inventory.find? (fun inv =>
        inv.user_id == u &&
          c.pending.ingredients.any (fun g =>
            g.id == inv.ingredient_id && g.name == n)) = none)
    (hi : c.pending.inventory.find? (fun inv =>
        inv.user_id == u && inv.ingredient_id == iid) = none) :
    SqliteManager.get_ingredient_quantity_by_name (.connected dn c) n u =
        .ok 0
      ∧ SqliteManager.get_ingredient_quantity_by_id (.connected dn c) iid
          u = .ok 0 := by
  constructor
  · simp [SqliteManager.get_ingredient_quantity_by_name,
      ManagerState.runRead, DB.get_ingredient_quantity_by_name, hn]
  · simp [SqliteManager.get_ingredient_quantity_by_id,
      ManagerState.runRead, DB.get_ingredient_quantity_by_id, hi]

/-- C8 witness: user 1 never added `pepper` (nor ingredient 7), yet holds
`salt`; both lookups return `0.0`. -/
theorem C8_absent_quantity_is_zero_witness :
    (connWithSaltInv.pending.inventory.find? (fun inv =>
        inv.user_id == 1 &&
          connWithSaltInv.pending.ingredients.any (fun g =>
            g.id == inv.ingredient_id && g.name == "pepper")) = none)
      ∧ (connWithSaltInv.pending.inventory.find? (fun inv =>
          inv.user_id == 1 && inv.ingredient_id == 7) = none)
      ∧ SqliteManager.get_ingredient_quantity_by_name
          (.connected "inventory.db" connWithSaltInv) "pepper" 1 = .ok 0
      ∧ SqliteManager.get_ingredient_quantity_by_id
          (.connected "inventory.db" connWithSaltInv) 7 1 = .ok 0 :=
  ⟨by decide, by decide,
   (C8_absent_quantity_is_zero "inventory.db" connWithSaltInv "pepper" 7 1
      (by decide) (by decide)).1,
   (C8_absent_quantity_is_zero "inventory.db" connWithSaltInv "pepper" 7 1
      (by decide) (by decide)).2⟩

/-- C10: in both update operations the `None`-valued entries of the
`updates` dict are dropped before the SQL is built, so an explicitly-`None`
field is indistinguishable from an omitted one; both updates depend on the
dict only through the generated `SET` clauses; a dict whose surviving
clause list is empty (in particular the all-`None` dict) always fails with
`InventoryUpdateError` and leaves the state unchanged; and a row's
`expiration_date` can never be cleared to `NULL` by an update. -/
theorem C10_none_entries_dropped :
    (∀ u : InventoryUpdateDict,
        buildUpdateFields (drop_none_entries u) = buildUpdateFields u)
      ∧ (∀ (c : Conn) (iid uid now : Nat) (p₁ p₂ : InventoryUpdateDict),
          buildUpdateFields p₁ = buildUpdateFields p₂ →
            c.update_ingredient_in_inventory_by_id iid uid p₁ now =
              c.update_ingredient_in_inventory_by_id iid uid p₂ now)
      ∧ (∀ (c : Conn) (n : String) (uid now : Nat)
          (p₁ p₂ : InventoryUpdateDict),
          buildUpdateFields p₁ = buildUpdateFields p₂ →
            c.update_ingredient_in_inventory_by_name n uid p₁ now =
              c.update_ingredient_in_inventory_by_name n uid p₂ now)
      ∧ (∀ (c : Conn) (iid uid now : Nat) (p : InventoryUpdateDict),
          buildUpdateFields p = [] →
            c.update_ingredient_in_inventory_by_id iid uid p now =
              (.error .inventoryUpdate, c))
      ∧ (∀ (c : Conn) (n : String) (uid now : Nat)
          (p : InventoryUpdateDict),
          buildUpdateFields p = [] →
            c.update_ingredient_in_inventory_by_name n uid p now =
              (.error .inventoryUpdate, c))
      ∧ (∀ (p : InventoryUpdateDict) (now : Nat) (r : InventoryRow),
          (∀ d, p.expiration_date ≠ some (some d)) →
            (applyUpdates (buildUpdateFields p) now r).expiration_date =
              r.expiration_date) := by
  refine ⟨fun u => ?_, fun c iid uid now p₁ p₂ h => ?_,
    fun c n uid now p₁ p₂ h => ?_, fun c iid uid now p h => ?_,
    fun c n uid now p h => ?_, fun p now r h => ?_⟩
  · rcases u with ⟨(_ | (_ | q)), (_ | (_ | t)), (_ | (_ | e))⟩ <;> rfl
  · simp only [Conn.update_ingredient_in_inventory_by_id, h]
  · simp only [Conn.update_ingredient_in_inventory_by_name, h]
  · simp [Conn.update_ingredient_in_inventory_by_id, h]
  · simp [Conn.update_ingredient_in_inventory_by_name, h]
  · rcases p with ⟨q, t, (_ | (_ | e))⟩
    · rcases q with _ | (_ | q) <;> rcases t with _ | (_ | t) <;> rfl
    · rcases q with _ | (_ | q) <;> rcases t with _ | (_ | t) <;> rfl
    · exact absurd rfl (h e)

/-- C10 witness: on the inventory holding user 1's `salt` row, the patch
`{quantity: 9, minimum_threshold: None, expiration_date: None}` behaves
exactly like `{quantity: 9}`, and the all-`None` patch fails with
`InventoryUpdateError` leaving the state unchanged. -/
theorem C10_none_entries_dropped_witness :
    (buildUpdateFields ⟨some (some 9), some none, some none⟩ =
        buildUpdateFields ⟨some (some 9), none, none⟩)
      ∧ connWithSaltInv.update_ingredient_in_inventory_by_id 1 1
          ⟨some (some 9), some none, some none⟩ 20 =
          connWithSaltInv.update_ingredient_in_inventory_by_id 1 1
            ⟨some (some 9), none, none⟩ 20
      ∧ (buildUpdateFields ⟨some none, some none, some none⟩ = [])
      ∧ connWithSaltInv.update_ingredient_in_inventory_by_id 1 1
          ⟨some none, some none, some none⟩ 20 =
          (.error .inventoryUpdate, connWithSaltInv)
      ∧ connWithSaltInv.update_ingredient_in_inventory_by_name "salt" 1
          ⟨some none, some none, some none⟩ 20 =
          (.error .inventoryUpdate, connWithSaltInv) :=
  ⟨by decide,
   C10_none_entries_dropped.2.1 connWithSaltInv 1 1 20 _ _ (by decide),
   by decide,
   C10_none_entries_dropped.2.2.2.1 connWithSaltInv 1 1 20 _ (by decide),
   C10_none_entries_dropped.2.2.2.2.1 connWithSaltInv "salt" 1 20 _
     (by decide)⟩

/-- C4: once `add_ingredient_to_catalog` has succeeded for a name, every
later call with the same name fails with
`IngredientAlreadyExistsInIngredientsError` without touching the state,
and the catalog holds exactly one row for that name (both committed and
pending). -/
theorem C4_catalog_uniqueness (c : Conn) (ins : IngredientInsertion)
    (newId : Nat) (c₁ : Conn)
    (h : c.add_ingredient_to_ingredients ins = (.ok newId, c₁)) :
    (∀ ins' : IngredientInsertion, ins'.name = ins.name →
        c₁.add_ingredient_to_ingredients ins' =
          (.error .ingredientAlreadyExistsInIngredients, c₁))
      ∧ DB.catalog_count_for_name c₁.committed ins.name = 1
      ∧ DB.catalog_count_for_name c₁.pending ins.name = 1 := by
  rw [Conn.add_ingredient_to_ingredients,
    Conn.add_ingredient_to_ingredients_with_lastrowid] at h
  by_cases hex : DB.ingredient_exists_in_ingredients_by_name c.pending
      ins.name
  · simp [hex] at h
  · simp only [hex, if_false, Bool.false_eq_true] at h
    by_cases h0 : c.pending.nextIngredientId == 0
    · simp [h0] at h
    · simp only [h0, if_false, Bool.false_eq_true, Conn.commit,
        Prod.mk.injEq, Except.ok.injEq] at h
      obtain ⟨hid, hc⟩ := h
      subst hc
      have hall : ∀ g ∈ c.pending.ingredients,
          ¬(g.name == ins.name) = true := by
        simp only [DB.ingredient_exists_in_ingredients_by_name,
          List.any_eq_true] at hex
        push_neg at hex
        simpa using hex
      refine ⟨fun ins' hname => ?_, ?_, ?_⟩
      · rw [Conn.add_ingredient_to_ingredients,
          Conn.add_ingredient_to_ingredients_with_lastrowid]
        simp [DB.ingredient_exists_in_ingredients_by_name, List.any_append,
          hname]
      · simp [DB.catalog_count_for_name, List.filter_append,
          List.filter_eq_nil_iff.mpr hall]
      · simp [DB.catalog_count_for_name, List.filter_append,
          List.filter_eq_nil_iff.mpr hall]

/-- C4 witness: adding `salt` to a fresh catalog succeeds with id 1; a
second insertion carrying the same name (even with different category and
unit) fails with `IngredientAlreadyExistsInIngredientsError` and the
committed catalog keeps exactly one `salt` row. -/
theorem C4_catalog_uniqueness_witness :
    Conn.init.add_ingredient_to_ingredients saltInsertion =
        (.ok 1, connWithSalt)
      ∧ connWithSalt.add_ingredient_to_ingredients
          ⟨"salt", "dairy", "pieces"⟩ =
          (.error .ingredientAlreadyExistsInIngredients, connWithSalt)
      ∧ DB.catalog_count_for_name connWithSalt.committed
          saltInsertion.name = 1 :=
  ⟨by decide,
   (C4_catalog_uniqueness Conn.init saltInsertion 1 connWithSalt
      (by decide)).1 ⟨"salt", "dairy", "pieces"⟩ (by decide),
   (C4_catalog_uniqueness Conn.init saltInsertion 1 connWithSalt
      (by decide)).2.1⟩

/-- C5: after `add_to_inventory` succeeded once for a (user, ingredient)
pair, every later call for the same pair fails with
`IngredientAlreadyExistsInInventoryError` and leaves the connection state
untouched. -/
theorem C5_inventory_uniqueness (c : Conn) (u iid : Nat)
    (ins : InventoryInsertion) (now : Nat)
    (resp : IngredientFullResponse) (c₁ : Conn)
    (h : c.add_ingredient_into_inventory u iid ins now = (.ok resp, c₁)) :
    ∀ (ins' : InventoryInsertion) (now' : Nat),
      c₁.add_ingredient_into_inventory u iid ins' now' =
        (.error .ingredientAlreadyExistsInInventory, c₁) := by
  rw [Conn.add_ingredient_into_inventory] at h
  by_cases hex : DB.ingredient_exists_in_inventory_by_id c.pending iid u
  · simp [hex] at h
  · simp only [hex, if_false, Bool.false_eq_true] at h
    by_cases h0 : c.pending.nextInventoryId == 0
    · simp [h0] at h
    · simp only [h0, if_false, Bool.false_eq_true] at h
      split at h
      · simp at h
      · rename_i r hr
        split at h
        · simp at h
        · rename_i g hg
          simp only [Prod.mk.injEq, Except.ok.injEq] at h
          obtain ⟨hresp, hc⟩ := h
          subst hc
          intro ins' now'
          simp only [Conn.commit] at hg
          have hgid := List.find?_some hg
          have hgmem : g ∈ c.pending.ingredients :=
            List.mem_of_find?_eq_some hg
          rw [Conn.add_ingredient_into_inventory]
          have hex2 : DB.ingredient_exists_in_inventory_by_id
              (Conn.commit ⟨c.committed,
                { ingredients := c.pending.ingredients,
                  inventory := c.pending.inventory ++
                    [⟨c.pending.nextInventoryId, u, iid, ins.quantity,
                      ins.minimum_threshold, ins.expiration_date, now,
                      now⟩],
                  nextIngredientId := c.pending.nextIngredientId,
                  nextInventoryId :=
                    c.pending.nextInventoryId + 1 }⟩).pending iid u =
              true := by
            simp only [Conn.commit, DB.ingredient_exists_in_inventory_by_id,
              List.any_eq_true]
            refine ⟨⟨c.pending.nextInventoryId, u, iid, ins.quantity,
              ins.minimum_threshold, ins.expiration_date, now, now⟩,
              List.mem_append_right _ (by simp), ?_⟩
            simp only [beq_self_eq_true, Bool.true_and]
            exact List.any_eq_true.mpr ⟨g, hgmem, by simp [hgid]⟩
          simp [hex2]

/-- C5 witness: user 1 adds ingredient 1 (`salt`) once successfully; the
second call for the same pair — with different quantities and time — fails
with `IngredientAlreadyExistsInInventoryError` and changes nothing. -/
theorem C5_inventory_uniqueness_witness :
    connWithSalt.add_ingredient_into_inventory 1 1 invInsertion 10 =
        (.ok ⟨1, 1, 1, 10, 10, "salt", "staple", "grams", 5, 1,
          some "2025-01-01"⟩, connWithSaltInv)
      ∧ connWithSaltInv.add_ingredient_into_inventory 1 1 ⟨2, 0, none⟩ 11 =
          (.error .ingredientAlreadyExistsInInventory, connWithSaltInv) :=
  ⟨by decide,
   C5_inventory_uniqueness connWithSalt 1 1 invInsertion 10
     ⟨1, 1, 1, 10, 10, "salt", "staple", "grams", 5, 1, some "2025-01-01"⟩
     connWithSaltInv (by decide) ⟨2, 0, none⟩ 11⟩

/-- C6: on a catalog mapping id `iid` to name `n` where the user holds no
inventory row for `n` (nor for `iid`), inserting an inventory item with
quantity 5, threshold 1 and expiration "2025-01-01" and reading it back
with `info_by_name` yields exactly those three values together with the
catalog's name, category and unit. -/
theorem C6_round_trip (c : Conn) (u iid : Nat) (n : String)
    (g : IngredientRow) (ins : InventoryInsertion) (now : Nat)
    (hg : c.pending.ingredients.find? (fun x => x.id == iid) = some g)
    (hname : g.name = n)
    (hex : DB.ingredient_exists_in_inventory_by_id c.pending iid u = false)
    (hnoname : c.pending.inventory.find? (fun inv =>
        inv.user_id == u &&
          (match DB.joined_catalog_row c.pending inv with
           | some x => x.name == n
           | none => false)) = none)
    (hnz : c.pending.nextInventoryId ≠ 0)
    (hfresh : ∀ r ∈ c.pending.inventory, r.id ≠ c.pending.nextInventoryId)
    (hq : ins.quantity = 5) (hthr : ins.minimum_threshold = 1)
    (hexp : ins.expiration_date = some "2025-01-01") :
    ∃ (resp : IngredientFullResponse) (c₁ : Conn),
      c.add_ingredient_into_inventory u iid ins now = (.ok resp, c₁)
        ∧ DB.get_ingredient_info_by_name c₁.pending n u =
            some ⟨n, g.category, g.unit_type, 5, 1, some "2025-01-01"⟩
        ∧ resp.quantity = 5 ∧ resp.minimum_threshold = 1
        ∧ resp.expiration_date = some "2025-01-01"
        ∧ resp.name = n := by
  have h0 : (c.pending.nextInventoryId == 0) = false := by
    simpa using hnz
  have hrow : (c.pending.inventory ++
      [(⟨c.pending.nextInventoryId, u, iid, ins.quantity,
        ins.minimum_threshold, ins.expiration_date, now, now⟩ :
        InventoryRow)]).find?
      (fun r => r.id == c.pending.nextInventoryId) =
      some ⟨c.pending.nextInventoryId, u, iid, ins.quantity,
        ins.minimum_threshold, ins.expiration_date, now, now⟩ := by
    rw [List.find?_append, List.find?_eq_none.mpr]
    · simp
    · intro r hrm
      simpa using hfresh r hrm
  refine ⟨⟨iid, c.pending.nextInventoryId, u, now, now, g.name, g.category,
    g.unit_type, ins.quantity, ins.minimum_threshold,
    ins.expiration_date⟩,
    Conn.commit ⟨c.committed,
      { ingredients := c.pending.ingredients,
        inventory := c.pending.inventory ++
          [⟨c.pending.nextInventoryId, u, iid, ins.quantity,
            ins.minimum_threshold, ins.expiration_date, now, now⟩],
        nextIngredientId := c.pending.nextIngredientId,
        nextInventoryId := c.pending.nextInventoryId + 1 }⟩, ?_, ?_, ?_,
    ?_, ?_, ?_⟩
  · rw [Conn.add_ingredient_into_inventory]
    simp only [hex, Bool.false_eq_true, if_false, h0, Conn.commit]
    rw [hrow]
    simp [hg]
  · simp only [Conn.commit, DB.get_ingredient_info_by_name,
      DB.joined_catalog_row] at hnoname ⊢
    rw [List.find?_append, hnoname]
    simp only [Option.none_or]
    rw [List.find?_cons]
    simp only [beq_self_eq_true, Bool.true_and]
    rw [hg]
    simp [hname, hg, hq, hthr, hexp]
  · exact hq
  · exact hthr
  · exact hexp
  · exact hname

/-- C6 witness: the concrete round trip for user 1 and `salt` on a fresh
database. -/
theorem C6_round_trip_witness :
    connWithSalt.pending.ingredients.find? (fun x => x.id == 1) =
        some ⟨1, "salt", "staple", "grams"⟩
      ∧ ∃ (resp : IngredientFullResponse) (c₁ : Conn),
          connWithSalt.add_ingredient_into_inventory 1 1 invInsertion 10 =
              (.ok resp, c₁)
            ∧ DB.get_ingredient_info_by_name c₁.pending "salt" 1 =
                some ⟨"salt", "staple", "grams", 5, 1, some "2025-01-01"⟩
            ∧ resp.quantity = 5 ∧ resp.minimum_threshold = 1
            ∧ resp.expiration_date = some "2025-01-01"
            ∧ resp.name = "salt" :=
  ⟨by decide,
   C6_round_trip connWithSalt 1 1 "salt" ⟨1, "salt", "staple", "grams"⟩
     invInsertion 10 (by decide) (by decide) (by decide) (by decide)
     (by decide) (by decide) (by decide) (by decide) (by decide)⟩

/-- C7: updating an existing inventory row (quantity 5, threshold 1) with
the sparse patch `{quantity: 9}` at a time strictly later than the row's
`updated_at` yields a composed row with quantity 9, threshold still 1,
`expiration_date` and `created_at` untouched, and an `updated_at` stamped
to the update time, strictly greater than the prior one. -/
theorem C7_partial_update_frame (c : Conn) (iid u : Nat)
    (g : IngredientRow) (r : InventoryRow) (now : Nat)
    (hg : c.pending.ingredients.find? (fun x => x.id == iid) = some g)
    (hr : c.pending.inventory.find? (fun x =>
        x.user_id == u && x.ingredient_id == iid) = some r)
    (hq : r.quantity = 5) (hthr : r.minimum_threshold = 1)
    (hnow : r.updated_at < now) :
    ∃ (resp : IngredientFullResponse) (c₁ : Conn),
      c.update_ingredient_in_inventory_by_id iid u
          ⟨some (some 9), none, none⟩ now = (.ok resp, c₁)
        ∧ resp.quantity = 9
        ∧ resp.minimum_threshold = 1
        ∧ resp.expiration_date = r.expiration_date
        ∧ resp.created_at = r.created_at
        ∧ resp.updated_at = now
        ∧ r.updated_at < resp.updated_at := by
  have hgp := List.find?_some hg
  have hgmem := List.mem_of_find?_eq_some hg
  have hrp := List.find?_some hr
  have hrmem := List.mem_of_find?_eq_some hr
  have hgid : g.id = iid := by simpa using hgp
  have hruser : (r.user_id == u) = true := by
    simpa using (Bool.and_eq_true _ _ |>.mp hrp).1
  have hring : (r.ingredient_id == iid) = true := by
    simpa using (Bool.and_eq_true _ _ |>.mp hrp).2
  have hex : DB.ingredient_exists_in_inventory_by_id c.pending iid u =
      true := by
    simp only [DB.ingredient_exists_in_inventory_by_id, List.any_eq_true]
    refine ⟨r, hrmem, ?_⟩
    simp only [hruser, Bool.true_and]
    exact List.any_eq_true.mpr ⟨g, hgmem,
      by simp [hgid, (by simpa using hring : r.ingredient_id = iid)]⟩
  have hcount : (c.pending.inventory.countP (fun x =>
      x.user_id == u && x.ingredient_id == iid) == 0) = false := by
    have hpos : 0 < c.pending.inventory.countP (fun x =>
        x.user_id == u && x.ingredient_id == iid) :=
      List.countP_pos_iff.mpr ⟨r, hrmem, hrp⟩
    simpa using hpos.ne'
  rw [Conn.update_ingredient_in_inventory_by_id]
  simp only [hex, Bool.not_true, Bool.false_eq_true, if_false,
    Bool.true_eq_false, ite_false, ite_true, if_true]
  have hfs : buildUpdateFields ⟨some (some 9), none, none⟩ =
      [SetClause.qty 9] := rfl
  rw [hfs]
  simp only [List.isEmpty_cons, Bool.false_eq_true, if_false, hcount,
    Conn.commit]
  rw [hg]
  dsimp only []
  rw [hgid]
  have hfind : List.find? (fun x => x.ingredient_id == iid &&
      x.user_id == u)
      (List.map (fun x =>
        if (x.user_id == u && x.ingredient_id == iid) = true
        then applyUpdates [SetClause.qty 9] now x else x)
        c.pending.inventory) =
      some (applyUpdates [SetClause.qty 9] now r) := by
    rw [List.find?_map]
    have hcomp : ((fun x => x.ingredient_id == iid && x.user_id == u) ∘
        (fun x => if (x.user_id == u && x.ingredient_id == iid) = true
          then applyUpdates [SetClause.qty 9] now x else x)) =
        (fun x : InventoryRow =>
          x.user_id == u && x.ingredient_id == iid) := by
      funext x
      by_cases hpx : (x.user_id == u && x.ingredient_id == iid) = true
      · simp only [Function.comp]
        rw [if_pos hpx]
        dsimp only [applyUpdates, applySetClause, List.foldl]
        exact Bool.and_comm _ _
      · simp only [Function.comp]
        rw [if_neg hpx]
        exact Bool.and_comm _ _
    rw [hcomp, hr]
    rw [Option.map_some']
    rw [if_pos hrp]
  rw [hfind]
  refine ⟨_, _, rfl, ?_, ?_, ?_, ?_, ?_, ?_⟩ <;>
    simp [applyUpdates, applySetClause, hthr, hnow]

/-- C7 witness: the concrete update on user 1's `salt` row (created and
last updated at time 10) performed at time 20. -/
theorem C7_partial_update_frame_witness :
    (connWithSaltInv.pending.ingredients.find? (fun x => x.id == 1) =
        some ⟨1, "salt", "staple", "grams"⟩)
      ∧ (connWithSaltInv.pending.inventory.find? (fun x =>
          x.user_id == 1 && x.ingredient_id == 1) =
          some ⟨1, 1, 1, 5, 1, some "2025-01-01", 10, 10⟩)
      ∧ ∃ (resp : IngredientFullResponse) (c₁ : Conn),
          connWithSaltInv.update_ingredient_in_inventory_by_id 1 1
              ⟨some (some 9), none, none⟩ 20 = (.ok resp, c₁)
            ∧ resp.quantity = 9
            ∧ resp.minimum_threshold = 1
            ∧ resp.expiration_date = some "2025-01-01"
            ∧ resp.created_at = 10
            ∧ resp.updated_at = 20
            ∧ (10 : Nat) < resp.updated_at :=
  ⟨by decide, by decide,
   C7_partial_update_frame connWithSaltInv 1 1
     ⟨1, "salt", "staple", "grams"⟩
     ⟨1, 1, 1, 5, 1, some "2025-01-01", 10, 10⟩ 20 (by decide) (by decide)
     (by decide) (by decide) (by decide)⟩
